import Mathlib

/-
Verification of the chai database core against its specification.

The development embeds, shallowly, the parts of the repository that the
checked properties are about: the value-type comparability predicate
(src/internal/types/types.go), the UPDATE statement parser
(src/internal/sql/parser/update.go), and — where the repository ships only
tests for a component — models of the catalog, table, index, transaction
and expression-formatting engines built from the specification's words.
-/

namespace Chai

instance {ε α : Type} [DecidableEq ε] [DecidableEq α] : DecidableEq (Except ε α) := fun a b =>
  match a, b with
  | .ok x, .ok y =>
      if h : x = y then .isTrue (by rw [h]) else .isFalse (by intro hc; cases hc; exact h rfl)
  | .error x, .error y =>
      if h : x = y then .isTrue (by rw [h]) else .isFalse (by intro hc; cases hc; exact h rfl)
  | .ok _, .error _ => .isFalse (by intro hc; cases hc)
  | .error _, .ok _ => .isFalse (by intro hc; cases hc)

/-! ## Errors

Error kinds distinguishable by consumers, from spec §7. -/

inductive DBError where
  | tableNotFound
  | tableAlreadyExists
  | readOnlyTable
  | indexNotFound
  | indexAlreadyExists
  | cannotDropConstraintIndex
  | documentNotFound
  | duplicateDocument
  | missingPrimaryKey
  | typeMismatch
  | transactionReadOnly
  | transactionClosed
  deriving DecidableEq, Repr

/-! ## Value types (src/internal/types/types.go)

`ValueType` mirrors the Go enumeration: TypeAny, TypeNull, TypeBoolean,
TypeInteger, TypeDouble, TypeTimestamp, TypeText, TypeBlob, TypeArray,
TypeObject. -/

inductive ValueType where
  | any
  | null
  | boolean
  | integer
  | double
  | timestamp
  | text
  | blob
  | array
  | object
  deriving DecidableEq, Repr, Fintype

namespace ValueType

/-- Mirrors `ValueType.IsNumber`: true if t is either an integer or a double. -/
def IsNumber (t : ValueType) : Bool :=
  t == .integer || t == .double

/-- Mirrors `ValueType.IsTimestampCompatible`:
`return t == TypeTimestamp || t == TypeText`. -/
def IsTimestampCompatible (t : ValueType) : Bool :=
  t == .timestamp || t == .text

/-- Mirrors `ValueType.IsComparableWith` from src/internal/types/types.go. -/
def IsComparableWith (t other : ValueType) : Bool :=
  if t == other then true
  else if t.IsNumber && other.IsNumber then true
  else if t.IsTimestampCompatible && other.IsTimestampCompatible then true
  else false

end ValueType

/-- Modelled from the spec: the value comparison routine itself is not under
src/; spec §3 says "Comparison across incompatible types is a typed error,
never silent false". The type-level check performed before any comparison:
incompatible operand types surface `typeMismatch`. -/
def compareTypesChecked (a b : ValueType) : Except DBError Unit :=
  if a.IsComparableWith b then .ok () else .error .typeMismatch

/-! ## Byte-level value encoding

Modelled from the spec: the encoding package is not under src/ (the tests in
src/unnamed/part_002 only call `encoding.EncodeInt32`). Spec §4.1: a 1-byte
type tag leads every encoding so heterogeneous keys sort first by type;
integers use sign-flipped big-endian; null sorts smallest; text/blob are
terminated and self-delimiting. -/

/-- Big-endian bytes of `n` on `w` bytes. -/
def beBytes (w : Nat) (n : Nat) : List Nat :=
  match w with
  | 0 => []
  | Nat.succ w' => (n / 256 ^ w') % 256 :: beBytes w' n

/-- Sign-flipped big-endian encoding of a 32-bit integer
(`encoding.EncodeInt32` in the repository). -/
def encodeInt32 (n : Int) : List Nat :=
  beBytes 4 (((n + 2147483648) % 4294967296).toNat)

/-- Sign-flipped big-endian encoding of a 64-bit integer. -/
def encodeInt64 (n : Int) : List Nat :=
  beBytes 8 (((n + 9223372036854775808) % 18446744073709551616).toNat)

/-- Big-endian encoding of the auto-increment counter (spec §4.4 step 2:
"allocate a monotonically-increasing 64-bit integer ... encoded big-endian"). -/
def encodeUInt64BE (n : Nat) : List Nat :=
  beBytes 8 (n % 18446744073709551616)

/-! ## Documents and runtime values

Modelled from the spec: the document package is not under src/. Spec §3: a
tagged union of values and a root object of UTF-8 field → value pairs. The
variants carried here are the scalar ones the checked claims exercise. -/

inductive Value where
  | null
  | boolean (b : Bool)
  | integer (n : Int)
  | text (s : String)
  | blob (bs : List Nat)
  deriving DecidableEq, Repr

/-- Type tag leading the encoding of each value; null's tag is the smallest,
so null sorts before every other type (spec §4.1: "null sorts smallest"). -/
def Value.tag : Value → Nat
  | .null => 1
  | .boolean _ => 2
  | .integer _ => 3
  | .text _ => 5
  | .blob _ => 6

/-- Order-preserving, type-prefixed encoding of a value (spec §4.1). -/
def encodeValue : Value → List Nat
  | .null => [1]
  | .boolean b => [2, cond b 1 0]
  | .integer n => 3 :: encodeInt64 n
  | .text s => 5 :: (s.data.map Char.toNat ++ [0])
  | .blob bs => 6 :: (bs ++ [0])

/-- A document is a root object: ordered field/value pairs. -/
def Doc := List (String × Value)

instance : DecidableEq Doc := inferInstanceAs (DecidableEq (List (String × Value)))

/-- Field lookup; `none` models `ErrFieldNotFound`. -/
def getField (d : Doc) (f : String) : Option Value :=
  match List.find? (fun p => p.1 == f) d with
  | some p => some p.2
  | none => none

/-! ## Lexicographic byte order and sorted insertion -/

/-- Strict lexicographic (memcmp) order on byte strings. -/
def lexLt : List Nat → List Nat → Bool
  | [], [] => false
  | [], _ :: _ => true
  | _ :: _, [] => false
  | a :: as, b :: bs => if a < b then true else if b < a then false else lexLt as bs

/-- Insert a keyed element into a list kept sorted by `lexLt` on its key,
modelling the ordered key space of the KV engine. -/
def insertSorted {α : Type} (key : α → List Nat) (x : α) : List α → List α
  | [] => [x]
  | y :: ys => if lexLt (key x) (key y) then x :: y :: ys else y :: insertSorted key x ys

/-! ## Table engine

Modelled from the spec: the table engine implementation is not under src/
(src/unnamed/part_002 holds only its tests). Spec §4.4: resolve the primary
key from the configured path — missing or empty value is `missingPrimaryKey`,
wrong type is `typeMismatch`; without a PK an auto-incrementing 64-bit
counter supplies the key; the row is stored under the encoded key, a
collision is `duplicateDocument`; every index of the table then receives an
entry whose value is null when the indexed path is absent. -/

/-- Primary-key type constraints used by the tests' table configurations
(`document.Int32Value`, `document.IntValue`). -/
inductive PkType where
  | int32
  | int64
  deriving DecidableEq, Repr

/-- Table metadata and rows. Field names follow `database.TableConfig`
(`PrimaryKeyName`, `PrimaryKeyType`) used in src/unnamed/part_002; `seq` is
the auto-increment counter, `rows` the KV entries under the table's range,
kept in ascending key order. -/
structure TableConfig where
  name : String
  primaryKeyName : Option String := none
  primaryKeyType : Option PkType := none
  readOnly : Bool := false
  seq : Nat := 0
  rows : List (List Nat × Doc) := []
  deriving DecidableEq

/-- Index metadata and entries. `constraintBound` marks an index created
implicitly by a UNIQUE/PK constraint (spec §3: such indexes refuse manual
DROP INDEX). Entries are (key, payload) pairs in ascending key order:
for non-unique indexes the key is `encode(value) || pk` with empty payload,
for unique indexes the key is `encode(value)` and the payload the pk
(spec §4.5). -/
structure IndexConfig where
  name : String
  tableName : String
  path : String
  unique : Bool := false
  constraintBound : Bool := false
  entries : List (List Nat × List Nat) := []
  deriving DecidableEq

/-- A value at the PK path that is present but empty (spec §4.4 step 1:
"missing or empty → MissingPrimaryKey"; the tests reject nil/empty blobs). -/
def Value.isEmptyPk : Value → Bool
  | .null => true
  | .text s => s == ""
  | .blob bs => bs.isEmpty
  | _ => false

/-- Typed encoding of the primary-key value under a type constraint
(spec §4.4 step 1: "wrong type → TypeMismatch"). -/
def checkPkType : PkType → Value → Except DBError (List Nat)
  | .int32, .integer n =>
      if -2147483648 ≤ n ∧ n < 2147483648 then .ok (encodeInt32 n)
      else .error .typeMismatch
  | .int64, .integer n => .ok (encodeInt64 n)
  | _, _ => .error .typeMismatch

/-- Resolve the primary key of a document, spec §4.4 steps 1-2. Returns the
encoded key and the table (with a bumped counter when auto-incremented). -/
def resolvePk (t : TableConfig) (d : Doc) : Except DBError (List Nat × TableConfig) :=
  match t.primaryKeyName with
  | some f =>
      match getField d f with
      | none => .error .missingPrimaryKey
      | some v =>
          if v.isEmptyPk then .error .missingPrimaryKey
          else
            match t.primaryKeyType with
            | some ty => (checkPkType ty v).map (fun k => (k, t))
            | none => .ok (encodeValue v, t)
  | none => .ok (encodeUInt64BE (t.seq + 1), { t with seq := t.seq + 1 })

/-- Add the entry for document `d` (stored under `pk`) to one index,
spec §4.4 step 4: the indexed value is null when the path is absent; a
unique-index collision is `duplicateDocument`. -/
def indexAdd (i : IndexConfig) (d : Doc) (pk : List Nat) : Except DBError IndexConfig :=
  let v := (getField d i.path).getD .null
  if i.unique then
    let k := encodeValue v
    if i.entries.any (fun e => e.1 == k) then .error .duplicateDocument
    else .ok { i with entries := insertSorted Prod.fst (k, pk) i.entries }
  else
    .ok { i with entries := insertSorted Prod.fst (encodeValue v ++ pk, []) i.entries }

/-- Table `Insert`, spec §4.4: returns the encoded primary key, the table
with the new row, and the table's indexes with their new entries. -/
def tableInsert (t : TableConfig) (idxs : List IndexConfig) (d : Doc) :
    Except DBError (List Nat × TableConfig × List IndexConfig) :=
  match resolvePk t d with
  | .error e => .error e
  | .ok (k, t') =>
    if t'.rows.any (fun r => r.1 == k) then .error .duplicateDocument
    else
      match idxs.mapM (fun i => indexAdd i d k) with
      | .error e => .error e
      | .ok idxs' => .ok (k, { t' with rows := insertSorted Prod.fst (k, d) t'.rows }, idxs')

/-- Table `GetDocument`, spec §4.4. -/
def tableGet (t : TableConfig) (k : List Nat) : Except DBError Doc :=
  match t.rows.find? (fun r => r.1 == k) with
  | some r => .ok r.2
  | none => .error .documentNotFound

/-! ## Catalog

Modelled from the spec: the catalog implementation is not under src/
(src/internal/query/statement/drop_test.go holds only its tests). Spec §4.3. -/

structure Catalog where
  tables : List TableConfig := []
  indexes : List IndexConfig := []
  deriving DecidableEq

namespace Catalog

def lookupTable (c : Catalog) (n : String) : Option TableConfig :=
  c.tables.find? (fun t => t.name == n)

def lookupIndex (c : Catalog) (n : String) : Option IndexConfig :=
  c.indexes.find? (fun i => i.name == n)

def listTables (c : Catalog) : List String :=
  c.tables.map (fun t => t.name)

/-- Catalog `CreateTable` (spec §4.3): `tableAlreadyExists` when present;
"implicitly creates the indexes demanded by unique/PK constraints". Each
field is (name, isUnique); the implicit index is named
`<table>_<field>_idx` (spec scenario S1: `test1_a_idx`) and is
constraint-bound. -/
def createTable (c : Catalog) (name : String) (fields : List (String × Bool)) :
    Except DBError Catalog :=
  if (c.lookupTable name).isSome then .error .tableAlreadyExists
  else
    .ok { c with
          tables := c.tables ++ [{ name := name }],
          indexes := c.indexes ++
            (fields.filter (fun f => f.2)).map (fun f =>
              { name := name ++ "_" ++ f.1 ++ "_idx", tableName := name,
                path := f.1, unique := true, constraintBound := true }) }

/-- Catalog `DropTable` (spec §4.3): `tableNotFound` when absent; refuses
`readOnlyTable`; deletes the table's rows, drops every owned index, removes
the catalog row. -/
def dropTable (c : Catalog) (name : String) : Except DBError Catalog :=
  match c.lookupTable name with
  | none => .error .tableNotFound
  | some t =>
      if t.readOnly then .error .readOnlyTable
      else .ok { tables := c.tables.filter (fun tb => !(tb.name == name)),
                 indexes := c.indexes.filter (fun i => !(i.tableName == name)) }

/-- Entries of an index rebuilt from its table's rows, one per row
(spec §4.3 ReIndex: "re-iterates the table, re-inserts each entry"). -/
def rebuildEntries (t : TableConfig) (path : String) (unique : Bool) :
    List (List Nat × List Nat) :=
  t.rows.foldl (fun acc r =>
    let v := (getField r.2 path).getD .null
    if unique then insertSorted Prod.fst (encodeValue v, r.1) acc
    else insertSorted Prod.fst (encodeValue v ++ r.1, []) acc) []

/-- Catalog `CreateIndex` (spec §4.3): `indexAlreadyExists` / `tableNotFound`;
"if the target table is non-empty, scans the table and populates the index". -/
def createIndex (c : Catalog) (name tableName path : String) (unique : Bool) :
    Except DBError Catalog :=
  if (c.lookupIndex name).isSome then .error .indexAlreadyExists
  else
    match c.lookupTable tableName with
    | none => .error .tableNotFound
    | some t =>
        .ok { c with indexes := c.indexes ++
              [{ name := name, tableName := tableName, path := path,
                 unique := unique,
                 entries := rebuildEntries t path unique }] }

/-- Catalog `DropIndex` (spec §4.3): `indexNotFound` when absent; refuses
constraint-bound indexes with `cannotDropConstraintIndex`. -/
def dropIndex (c : Catalog) (name : String) : Except DBError Catalog :=
  match c.lookupIndex name with
  | none => .error .indexNotFound
  | some i =>
      if i.constraintBound then .error .cannotDropConstraintIndex
      else .ok { c with indexes := c.indexes.filter (fun j => !(j.name == name)) }

/-- Catalog `ReIndex` (spec §4.3): `indexNotFound` when absent; truncates the
named index's entries and re-inserts one entry per table row; no other
index's prefix is touched. -/
def reIndex (c : Catalog) (name : String) : Except DBError Catalog :=
  match c.lookupIndex name with
  | none => .error .indexNotFound
  | some i =>
      match c.lookupTable i.tableName with
      | none => .error .tableNotFound
      | some t =>
          .ok { c with indexes := c.indexes.map (fun j =>
                if j.name == name then { j with entries := rebuildEntries t i.path i.unique }
                else j) }

end Catalog

/-! ## KV session lifecycle

Modelled from the spec: the engine implementations are not under src/
(src/unnamed/part_002 holds the engine test suite). Spec §4.2: "Commit on a
read-only session or double-commit is an error; double-rollback is a no-op;
commit-after-rollback fails"; the test suite additionally pins that rollback
after commit does not fail. -/

inductive TxStatus where
  | live
  | committed
  | rolledBack
  deriving DecidableEq, Repr

structure Session where
  writable : Bool
  status : TxStatus
  deriving DecidableEq, Repr

def beginSession (w : Bool) : Session := { writable := w, status := .live }

/-- Session `Commit`: errors on a read-only session and on any session that
is no longer live. -/
def Session.commit (s : Session) : Except DBError Session :=
  match s.status with
  | .live =>
      if s.writable then .ok { s with status := .committed }
      else .error .transactionReadOnly
  | _ => .error .transactionClosed

/-- Session `Rollback`: succeeds on a live session and is a successful no-op
on a session already committed or rolled back. -/
def Session.rollback (s : Session) : Except DBError Session :=
  match s.status with
  | .live => .ok { s with status := .rolledBack }
  | _ => .ok s

/-! ## Engine-level transactions over committed state

Modelled from the spec: the engine implementations are not under src/.
Spec §4.2/§5: a transaction observes the committed state at `Begin`;
`Commit` publishes its view, `Rollback` restores the committed state; a
read-only transaction rejects mutations with `transactionReadOnly`. -/

structure EngineState where
  tables : List String := []
  indexes : List (String × String) := []
  deriving DecidableEq, Repr

structure EngineTx where
  writable : Bool
  base : EngineState
  cur : EngineState
  deriving DecidableEq, Repr

/-- `Begin(writable)`: the transaction's view starts at the committed state. -/
def beginTx (e : EngineState) (w : Bool) : EngineTx :=
  { writable := w, base := e, cur := e }

/-- Engine-transaction `CreateTable`. -/
def EngineTx.createTable (tx : EngineTx) (n : String) : Except DBError EngineTx :=
  if !tx.writable then .error .transactionReadOnly
  else if tx.cur.tables.contains n then .error .tableAlreadyExists
  else .ok { tx with cur := { tx.cur with tables := tx.cur.tables ++ [n] } }

/-- Engine-transaction `CreateIndex` on a table. -/
def EngineTx.createIndex (tx : EngineTx) (tbl idx : String) : Except DBError EngineTx :=
  if !tx.writable then .error .transactionReadOnly
  else if !tx.cur.tables.contains tbl then .error .tableNotFound
  else if tx.cur.indexes.contains (tbl, idx) then .error .indexAlreadyExists
  else .ok { tx with cur := { tx.cur with indexes := tx.cur.indexes ++ [(tbl, idx)] } }

/-- Engine-transaction `Table`: `tableNotFound` when the table is not
visible to this transaction. -/
def EngineTx.getTable (tx : EngineTx) (n : String) : Except DBError Unit :=
  if tx.cur.tables.contains n then .ok () else .error .tableNotFound

/-- Engine-transaction `Index`: `tableNotFound` when the table is missing,
`indexNotFound` when the table exists but the index does not. -/
def EngineTx.getIndex (tx : EngineTx) (tbl idx : String) : Except DBError Unit :=
  if !tx.cur.tables.contains tbl then .error .tableNotFound
  else if tx.cur.indexes.contains (tbl, idx) then .ok () else .error .indexNotFound

/-- `Commit` publishes the transaction's view as the committed state. -/
def EngineTx.commitTx (tx : EngineTx) : EngineState := tx.cur

/-- `Rollback` leaves the committed state exactly as it was at `Begin`. -/
def EngineTx.rollbackTx (tx : EngineTx) : EngineState := tx.base

/-! ## Expression stringification and parsing

Modelled from the spec: the expression AST, its `String` method and the
expression parser are not under src/ (src/unnamed/part_000 holds only their
test). Spec §4.7: expressions are a sum type over literal values, path
references, function calls (`pk()`, `CAST(expr AS type)`), binary
comparison, arithmetic and logical operators; stringification is reversible
through the parser modulo whitespace. -/

def lbraceC : Char := Char.ofNat 123

def rbraceC : Char := Char.ofNat 125

/-- A path segment: a field name or an array index (spec §3 FieldPath). -/
inductive Seg where
  | fld (s : String)
  | idx (n : Nat)
  deriving DecidableEq, Repr

/-- Expression sum type (spec §4.7). Double literals carry their integer
part and fraction digits, the decimal reading of the source literal. -/
inductive SqlExpr where
  | litInt (n : Nat)
  | litDouble (ip : Nat) (fp : String)
  | litBool (b : Bool)
  | litText (s : String)
  | path (segs : List Seg)
  | arr (xs : List SqlExpr)
  | obj (fs : List (String × SqlExpr))
  | pkFn
  | cast (e : SqlExpr) (ty : String)
  | bin (op : String) (l r : SqlExpr)

def Seg.fmt : Seg → String
  | .fld s => s
  | .idx n => toString n

def fmtSegs : List Seg → String
  | [] => ""
  | [s] => s.fmt
  | s :: rest => s.fmt ++ "." ++ fmtSegs rest

mutual

/-- Stringification of an expression, the `String()`/`%v` formatting
checked by `TestString` in src/unnamed/part_000. -/
def fmtExpr : SqlExpr → String
  | .litInt n => toString n
  | .litDouble ip fp => toString ip ++ "." ++ fp
  | .litBool b => cond b "true" "false"
  | .litText s => "\"" ++ s ++ "\""
  | .path segs => fmtSegs segs
  | .arr xs => "[" ++ fmtExprList xs ++ "]"
  | .obj fs => "\x7b" ++ fmtObjFields fs ++ "\x7d"
  | .pkFn => "pk()"
  | .cast e ty => "CAST(" ++ fmtExpr e ++ " AS " ++ ty ++ ")"
  | .bin op l r => fmtExpr l ++ " " ++ op ++ " " ++ fmtExpr r

def fmtExprList : List SqlExpr → String
  | [] => ""
  | [x] => fmtExpr x
  | x :: xs => fmtExpr x ++ ", " ++ fmtExprList xs

def fmtObjFields : List (String × SqlExpr) → String
  | [] => ""
  | [f] => "\"" ++ f.1 ++ "\": " ++ fmtExpr f.2
  | f :: fs => "\"" ++ f.1 ++ "\": " ++ fmtExpr f.2 ++ ", " ++ fmtObjFields fs

end

/-! Scanner tokens. -/

inductive Tok where
  | num (ip : Nat) (fp : Option String)
  | ident (s : String)
  | str (s : String)
  | lbracket
  | rbracket
  | lbrace
  | rbrace
  | lparen
  | rparen
  | colon
  | comma
  | dot
  | opTok (s : String)
  deriving DecidableEq, Repr

def isDigitC (c : Char) : Bool := '0' ≤ c && c ≤ '9'

def isIdentC (c : Char) : Bool :=
  ('a' ≤ c && c ≤ 'z') || ('A' ≤ c && c ≤ 'Z') || c == '_' || isDigitC c

def isIdentStartC (c : Char) : Bool :=
  ('a' ≤ c && c ≤ 'z') || ('A' ≤ c && c ≤ 'Z') || c == '_'

def digitsToNat (ds : List Char) : Nat :=
  ds.foldl (fun acc c => acc * 10 + (c.toNat - 48)) 0

/-- Fuel-guarded scanner over the characters of an expression string. -/
def tokenizeF : Nat → List Char → Option (List Tok)
  | 0, _ => none
  | _, [] => some []
  | Nat.succ fl, c :: cs =>
    if c == ' ' then tokenizeF fl cs
    else if isDigitC c then
      let ds := (c :: cs).takeWhile isDigitC
      let rest := (c :: cs).dropWhile isDigitC
      let ip := digitsToNat ds
      match rest with
      | '.' :: d :: r2 =>
        if isDigitC d then
          let fs := (d :: r2).takeWhile isDigitC
          let rest2 := (d :: r2).dropWhile isDigitC
          (tokenizeF fl rest2).map (fun ts => .num ip (some (String.mk fs)) :: ts)
        else (tokenizeF fl rest).map (fun ts => .num ip none :: ts)
      | _ => (tokenizeF fl rest).map (fun ts => .num ip none :: ts)
    else if isIdentStartC c then
      let nm := (c :: cs).takeWhile isIdentC
      let rest := (c :: cs).dropWhile isIdentC
      (tokenizeF fl rest).map (fun ts => .ident (String.mk nm) :: ts)
    else if c == '"' then
      let body := cs.takeWhile (fun x => !(x == '"'))
      match cs.dropWhile (fun x => !(x == '"')) with
      | '"' :: rest => (tokenizeF fl rest).map (fun ts => .str (String.mk body) :: ts)
      | _ => none
    else if c == '[' then (tokenizeF fl cs).map (fun ts => .lbracket :: ts)
    else if c == ']' then (tokenizeF fl cs).map (fun ts => .rbracket :: ts)
    else if c == lbraceC then (tokenizeF fl cs).map (fun ts => .lbrace :: ts)
    else if c == rbraceC then (tokenizeF fl cs).map (fun ts => .rbrace :: ts)
    else if c == '(' then (tokenizeF fl cs).map (fun ts => .lparen :: ts)
    else if c == ')' then (tokenizeF fl cs).map (fun ts => .rparen :: ts)
    else if c == ':' then (tokenizeF fl cs).map (fun ts => .colon :: ts)
    else if c == ',' then (tokenizeF fl cs).map (fun ts => .comma :: ts)
    else if c == '.' then (tokenizeF fl cs).map (fun ts => .dot :: ts)
    else if c == '>' then
      match cs with
      | '=' :: rest => (tokenizeF fl rest).map (fun ts => .opTok ">=" :: ts)
      | _ => (tokenizeF fl cs).map (fun ts => .opTok ">" :: ts)
    else if c == '<' then
      match cs with
      | '=' :: rest => (tokenizeF fl rest).map (fun ts => .opTok "<=" :: ts)
      | _ => (tokenizeF fl cs).map (fun ts => .opTok "<" :: ts)
    else if c == '=' then (tokenizeF fl cs).map (fun ts => .opTok "=" :: ts)
    else if c == '+' then (tokenizeF fl cs).map (fun ts => .opTok "+" :: ts)
    else if c == '-' then (tokenizeF fl cs).map (fun ts => .opTok "-" :: ts)
    else if c == '*' then (tokenizeF fl cs).map (fun ts => .opTok "*" :: ts)
    else if c == '/' then (tokenizeF fl cs).map (fun ts => .opTok "/" :: ts)
    else if c == '%' then (tokenizeF fl cs).map (fun ts => .opTok "%" :: ts)
    else if c == '&' then (tokenizeF fl cs).map (fun ts => .opTok "&" :: ts)
    else if c == '|' then (tokenizeF fl cs).map (fun ts => .opTok "|" :: ts)
    else if c == '^' then (tokenizeF fl cs).map (fun ts => .opTok "^" :: ts)
    else none

def tokenize (s : String) : Option (List Tok) :=
  tokenizeF (s.length + 1) s.data

/-- Path continuation: `.segment` repetitions after the leading identifier. -/
def pathTail : List Tok → List Seg → (List Seg × List Tok)
  | .dot :: .ident s :: rest, acc => pathTail rest (acc ++ [.fld s])
  | .dot :: .num n none :: rest, acc => pathTail rest (acc ++ [.idx n])
  | ts, acc => (acc, ts)

mutual

/-- Parse one operand (literal, path, array, object, `pk()`, `CAST`). -/
def parseOperand : Nat → List Tok → Option (SqlExpr × List Tok)
  | 0, _ => none
  | Nat.succ fl, ts =>
    match ts with
    | .num ip (some fp) :: rest => some (.litDouble ip fp, rest)
    | .num ip none :: rest => some (.litInt ip, rest)
    | .str s :: rest => some (.litText s, rest)
    | .ident "true" :: rest => some (.litBool true, rest)
    | .ident "false" :: rest => some (.litBool false, rest)
    | .ident "pk" :: .lparen :: .rparen :: rest => some (.pkFn, rest)
    | .ident "CAST" :: .lparen :: rest =>
      match parseExprF fl rest with
      | some (e, .ident "AS" :: .ident ty :: .rparen :: rest2) => some (.cast e ty, rest2)
      | _ => none
    | .ident s :: rest =>
      let (segs, rest2) := pathTail rest [.fld s]
      some (.path segs, rest2)
    | .lbracket :: .rbracket :: rest => some (.arr [], rest)
    | .lbracket :: rest =>
      match parseExprSeq fl rest with
      | some (xs, .rbracket :: rest2) => some (.arr xs, rest2)
      | _ => none
    | .lbrace :: .rbrace :: rest => some (.obj [], rest)
    | .lbrace :: rest =>
      match parseObjSeq fl rest with
      | some (fs, .rbrace :: rest2) => some (.obj fs, rest2)
      | _ => none
    | _ => none

/-- Parse a comma-separated expression sequence (array elements). -/
def parseExprSeq : Nat → List Tok → Option (List SqlExpr × List Tok)
  | 0, _ => none
  | Nat.succ fl, ts =>
    match parseExprF fl ts with
    | some (e, .comma :: rest) =>
      match parseExprSeq fl rest with
      | some (xs, rest2) => some (e :: xs, rest2)
      | none => none
    | some (e, rest) => some ([e], rest)
    | none => none

/-- Parse a comma-separated `"field": expr` sequence (object fields). -/
def parseObjSeq : Nat → List Tok → Option (List (String × SqlExpr) × List Tok)
  | 0, _ => none
  | Nat.succ fl, ts =>
    match ts with
    | .str k :: .colon :: rest =>
      match parseExprF fl rest with
      | some (e, .comma :: rest2) =>
        match parseObjSeq fl rest2 with
        | some (fs, rest3) => some ((k, e) :: fs, rest3)
        | none => none
      | some (e, rest2) => some ([(k, e)], rest2)
      | none => none
    | _ => none

/-- Parse an expression: an operand optionally followed by a binary
operator and a second operand. -/
def parseExprF : Nat → List Tok → Option (SqlExpr × List Tok)
  | 0, _ => none
  | Nat.succ fl, ts =>
    match parseOperand fl ts with
    | some (e1, .opTok op :: rest) =>
      match parseOperand fl rest with
      | some (e2, rest2) => some (.bin op e1 e2, rest2)
      | none => none
    | some (e1, .ident "AND" :: rest) =>
      match parseOperand fl rest with
      | some (e2, rest2) => some (.bin "AND" e1 e2, rest2)
      | none => none
    | some (e1, .ident "OR" :: rest) =>
      match parseOperand fl rest with
      | some (e2, rest2) => some (.bin "OR" e1 e2, rest2)
      | none => none
    | some (e1, rest) => some (e1, rest)
    | none => none

end

/-- `ParseExpr` on a whole string: tokenize, parse, require all input
consumed. -/
def parseSql (s : String) : Option SqlExpr :=
  match tokenize s with
  | none => none
  | some ts =>
    match parseExprF (ts.length + 1) ts with
    | some (e, []) => some e
    | _ => none

/-- `Format(Parse(s)) == s`, the property of `TestString`. -/
def roundtrip (s : String) : Bool :=
  match parseSql s with
  | some e => fmtExpr e == s
  | none => false

/-- The operand corpus of `TestString` (src/unnamed/part_000). -/
def operandCorpus : List String :=
  ["10.4", "true", "500", "foo.bar.1", "\"hello\"",
   "[1, 2, \"foo\"]",
   "\x7b\"a\": \"foo\", \"b\": 10\x7d",
   "pk()", "CAST(10 AS int64)"]

/-- The operator corpus of `TestString`. -/
def operatorCorpus : List String :=
  ["=", ">", ">=", "<", "<=", "+", "-", "*", "/", "%", "&", "|", "^", "AND", "OR"]

/-! ## UPDATE statement parser (src/internal/sql/parser/update.go)

Token-level embedding of `parseUpdateStatement`, `parseSetClause` and
`parseUnsetClause`. Parse errors are collapsed to `Unit`; every parsing
function returns the parsed result together with the tokens it did not
consume (the scanner's `Unscan` corresponds to leaving a token
unconsumed). -/

inductive UTok where
  | ident (s : String)
  | dot
  | comma
  | eq
  | intLit (n : Nat)
  | kwWhere
  | kwSet
  | kwUnset
  deriving DecidableEq, Repr

/-- Minimal expression grammar standing in for `ParseExpr` on the SET
right-hand side: a literal or a path reference. -/
inductive UExpr where
  | lit (n : Nat)
  | pathRef (segs : List String)
  deriving DecidableEq, Repr

/-- One `path = expr` pair of a SET clause (`query.UpdateSetPair`). -/
structure UpdateSetPair where
  path : List String
  e : UExpr
  deriving DecidableEq, Repr

/-- The UPDATE statement AST (`query.UpdateStmt`): `SetPairs`,
`UnsetFields` (plain strings in the source), `WhereExpr`. -/
structure UpdateStmt where
  tableName : String
  setPairs : List UpdateSetPair := []
  unsetFields : List String := []
  whereExpr : Option UExpr := none
  deriving DecidableEq, Repr

/-- Mirrors `p.parseIdent`: consumes a single IDENT token. -/
def parseIdentTok : List UTok → Except Unit (String × List UTok)
  | .ident s :: rest => .ok (s, rest)
  | _ => .error ()

/-- Accumulate `.segment` continuations of a path. -/
def uPathTail : List UTok → List String → (List String × List UTok)
  | .dot :: .ident s :: rest, acc => uPathTail rest (acc ++ [s])
  | .dot :: .intLit n :: rest, acc => uPathTail rest (acc ++ [toString n])
  | ts, acc => (acc, ts)

/-- Modelled from the spec: `p.parsePath` is not under src/. Spec §3
FieldPath: an ordered sequence of segments, textual form using `.` between
segments — a leading identifier followed by `.segment` repetitions. -/
def parsePathToks : List UTok → Except Unit (List String × List UTok)
  | .ident s :: rest => .ok (uPathTail rest [s])
  | _ => .error ()

/-- Modelled from the spec: `p.ParseExpr` is not under src/; on the SET
right-hand side the checked claims only need literals and path
references. -/
def parseExprToks : List UTok → Except Unit (UExpr × List UTok)
  | .intLit n :: rest => .ok (.lit n, rest)
  | .ident s :: rest =>
      let (segs, rest2) := uPathTail rest [s]
      .ok (.pathRef segs, rest2)
  | _ => .error ()

/-- Loop body of `parseSetClause`: on each round after the first, a comma is
required to continue (otherwise the token is unscanned and the loop ends);
then a path, the EQ sign, and an expression are parsed. -/
def parseSetPairs (fuel : Nat) (first : Bool) (ts : List UTok)
    (acc : List UpdateSetPair) : Except Unit (List UpdateSetPair × List UTok) :=
  match fuel with
  | 0 => .error ()
  | Nat.succ fl =>
    if first then
      match parsePathToks ts with
      | .error _ => .error ()
      | .ok (p, ts1) =>
        match ts1 with
        | .eq :: ts2 =>
          match parseExprToks ts2 with
          | .error _ => .error ()
          | .ok (e, ts3) => parseSetPairs fl false ts3 (acc ++ [{ path := p, e := e }])
        | _ => .error ()
    else
      match ts with
      | .comma :: ts1 =>
        match parsePathToks ts1 with
        | .error _ => .error ()
        | .ok (p, ts2) =>
          match ts2 with
          | .eq :: ts3 =>
            match parseExprToks ts3 with
            | .error _ => .error ()
            | .ok (e, ts4) => parseSetPairs fl false ts4 (acc ++ [{ path := p, e := e }])
          | _ => .error ()
      | _ => .ok (acc, ts)

/-- Mirrors `parseSetClause`. -/
def parseSetClause (ts : List UTok) : Except Unit (List UpdateSetPair × List UTok) :=
  parseSetPairs (ts.length + 1) true ts []

/-- Loop body of `parseUnsetClause`: on each round after the first, a comma
is required to continue; then `p.parseIdent` — a single identifier, not a
path — is parsed and appended to the `fields` string list. -/
def parseUnsetFields (fuel : Nat) (first : Bool) (ts : List UTok)
    (acc : List String) : Except Unit (List String × List UTok) :=
  match fuel with
  | 0 => .error ()
  | Nat.succ fl =>
    if first then
      match parseIdentTok ts with
      | .error _ => .error ()
      | .ok (l, ts1) => parseUnsetFields fl false ts1 (acc ++ [l])
    else
      match ts with
      | .comma :: ts1 =>
        match parseIdentTok ts1 with
        | .error _ => .error ()
        | .ok (l, ts2) => parseUnsetFields fl false ts2 (acc ++ [l])
      | _ => .ok (acc, ts)

/-- Mirrors `parseUnsetClause`. -/
def parseUnsetClause (ts : List UTok) : Except Unit (List String × List UTok) :=
  parseUnsetFields (ts.length + 1) true ts []

/-- Modelled from the spec: `p.parseCondition` is not under src/; the WHERE
clause is optional — absent when the next token is not WHERE. -/
def parseConditionToks : List UTok → Except Unit (Option UExpr × List UTok)
  | .kwWhere :: ts =>
      match parseExprToks ts with
      | .error _ => .error ()
      | .ok (e, ts1) => .ok (some e, ts1)
  | ts => .ok (none, ts)

/-- Mirrors `parseUpdateStatement`: table name, then a SET or UNSET clause,
then the optional condition. -/
def parseUpdateStatement (ts : List UTok) : Except Unit (UpdateStmt × List UTok) :=
  match parseIdentTok ts with
  | .error _ => .error ()
  | .ok (tname, ts1) =>
    match ts1 with
    | .kwSet :: ts2 =>
      match parseSetClause ts2 with
      | .error _ => .error ()
      | .ok (pairs, ts3) =>
        match parseConditionToks ts3 with
        | .error _ => .error ()
        | .ok (w, ts4) => .ok ({ tableName := tname, setPairs := pairs, whereExpr := w }, ts4)
    | .kwUnset :: ts2 =>
      match parseUnsetClause ts2 with
      | .error _ => .error ()
      | .ok (fs, ts3) =>
        match parseConditionToks ts3 with
        | .error _ => .error ()
        | .ok (w, ts4) => .ok ({ tableName := tname, unsetFields := fs, whereExpr := w }, ts4)
    | _ => .error ()

/-! ## Concrete states used to instantiate the quantified theorems -/

/-- The manually created index of spec scenario S2
(`CREATE INDEX idx_t1_foo ON t1(foo)`). -/
def c5IdxFoo : IndexConfig :=
  { name := "idx_t1_foo", tableName := "t1", path := "foo" }

/-- The constraint-bound index of spec scenario S2, created implicitly by
`bar int unique`. -/
def c5IdxBar : IndexConfig :=
  { name := "t1_bar_idx", tableName := "t1", path := "bar",
    unique := true, constraintBound := true }

/-- Catalog of spec scenario S2 after
`CREATE TABLE t1(foo text, bar int unique); CREATE INDEX idx_t1_foo ON t1(foo)`. -/
def c5Catalog : Catalog :=
  { tables := [{ name := "t1" }], indexes := [c5IdxFoo, c5IdxBar] }

/-- The table of spec scenario S3: primary key at path `foo`, constrained
to INT32 (`TestTableInsert`, src/unnamed/part_002). -/
def s3Table : TableConfig :=
  { name := "test", primaryKeyName := some "foo", primaryKeyType := some .int32 }

/-- The table of spec scenario S4: no primary key configured, keys come
from the auto-increment counter. -/
def s4Table : TableConfig := { name := "test" }

/-- The index of spec scenario S4: non-unique index on path `foo`. -/
def s4Index : IndexConfig := { name := "idxFoo", tableName := "test", path := "foo" }

/-- The constraint-bound index implicitly created by
`CREATE TABLE test1(a INT UNIQUE)`. -/
def c2IdxA : IndexConfig :=
  { name := "test1_a_idx", tableName := "test1", path := "a", unique := true, constraintBound := true }

/-- An index owned by the surviving table test2. -/
def c2IdxB : IndexConfig := { name := "idx2", tableName := "test2", path := "b" }

/-- A concrete two-table catalog before `DROP TABLE test1`. -/
def c2Before : Catalog :=
  { tables := [{ name := "test1" }, { name := "test2" }], indexes := [c2IdxA, c2IdxB] }

/-- The same catalog after `DROP TABLE test1`. -/
def c2After : Catalog := { tables := [{ name := "test2" }], indexes := [c2IdxB] }

/-- Spec scenario S1:
`CREATE TABLE test1(a INT UNIQUE); CREATE TABLE test2; CREATE TABLE test3;
DROP TABLE test1` starting from an empty catalog. -/
def s1Chain : Except DBError Catalog := do
  let c1 ← Catalog.createTable {} "test1" [("a", true)]
  let c2 ← Catalog.createTable c1 "test2" []
  let c3 ← Catalog.createTable c2 "test3" []
  Catalog.dropTable c3 "test1"

/-- The table of spec scenario S5, with arbitrary rows. -/
def c7TableOf (rows : List (List Nat × Doc)) : TableConfig := { name := "test", rows := rows }

/-- Index `a` of spec scenario S5, with arbitrary entries. -/
def c7IdxA (ea : List (List Nat × List Nat)) : IndexConfig :=
  { name := "a", tableName := "test", path := "fa", entries := ea }

/-- Index `b` of spec scenario S5, with arbitrary entries. -/
def c7IdxB (eb : List (List Nat × List Nat)) : IndexConfig :=
  { name := "b", tableName := "test", path := "fb", entries := eb }

/-- Catalog of spec scenario S5 holding both indexes `a` and `b`. -/
def c7CatAB (rows : List (List Nat × Doc)) (ea eb : List (List Nat × List Nat)) : Catalog :=
  ⟨[c7TableOf rows], [c7IdxA ea, c7IdxB eb]⟩

/-- Catalog of spec scenario S5 after `DROP INDEX b`. -/
def c7CatA (rows : List (List Nat × Doc)) (ea : List (List Nat × List Nat)) : Catalog :=
  ⟨[c7TableOf rows], [c7IdxA ea]⟩

/-- Committed engine state with one table, no indexes. -/
def c8E0 : EngineState := { tables := ["table"] }

/-- The writable transaction of scenario S6 after `CREATE TABLE table`
starting from the empty committed state. -/
def c8TxT : EngineTx := { writable := true, base := {}, cur := { tables := ["table"] } }

/-- A writable transaction over `c8E0` after `CREATE INDEX idx ON table`. -/
def c8TxI : EngineTx :=
  { writable := true, base := c8E0, cur := { tables := ["table"], indexes := [("table", "idx")] } }

/-! ## Theorems -/

/-- Sorted insertion grows a list by exactly one element. -/
theorem insertSorted_length {α : Type} (key : α → List Nat) (x : α) :
    ∀ l : List α, (insertSorted key x l).length = l.length + 1 := by
  intro l
  induction l with
  | nil => rfl
  | cons y ys ih =>
    unfold insertSorted
    by_cases h : lexLt (key x) (key y) = true
    · simp [h]
    · simp [h, ih]

/-- Rebuilding an index produces exactly one entry per table row. -/
theorem rebuildEntries_length (t : TableConfig) (path : String) (unique : Bool) :
    (Catalog.rebuildEntries t path unique).length = t.rows.length := by
  unfold Catalog.rebuildEntries
  suffices h : ∀ (rs : List (List Nat × Doc)) (acc : List (List Nat × List Nat)),
      (rs.foldl (fun acc r =>
        let v := (getField r.2 path).getD .null
        if unique then insertSorted Prod.fst (encodeValue v, r.1) acc
        else insertSorted Prod.fst (encodeValue v ++ r.1, []) acc) acc).length =
        acc.length + rs.length by
    simpa using h t.rows []
  intro rs
  induction rs with
  | nil => intro acc; simp
  | cons r rs ih =>
    intro acc
    simp only [List.foldl_cons, ih]
    by_cases h : unique = true
    · simp [h, insertSorted_length]; omega
    · simp [h, insertSorted_length]; omega

/-- C1: inserting a document carrying integer 1 at the primary-key path
`foo` of a table constrained to INT32 returns the key `encode_i32(1)`; a
second insert of a document with an equal primary-key value fails with
`duplicateDocument`; the first document remains retrievable by that key. -/
theorem c1_insert_pk_duplicate (d d' : Doc)
    (h : getField d "foo" = some (.integer 1))
    (h' : getField d' "foo" = some (.integer 1)) :
    tableInsert s3Table [] d =
      .ok (encodeInt32 1, { s3Table with rows := [(encodeInt32 1, d)] }, []) ∧
    tableInsert { s3Table with rows := [(encodeInt32 1, d)] } [] d' =
      .error .duplicateDocument ∧
    tableGet { s3Table with rows := [(encodeInt32 1, d)] } (encodeInt32 1) = .ok d := by
  refine ⟨?_, ?_, ?_⟩
  · simp [tableInsert, resolvePk, s3Table, h, Value.isEmptyPk, checkPkType, Except.map,
      insertSorted, List.mapM.loop, pure, Except.pure]
  · simp [tableInsert, resolvePk, s3Table, h', Value.isEmptyPk, checkPkType, Except.map]
  · simp [tableGet, List.find?]

/-- C1 witness: the concrete document of `TestTableInsert`
(`{foo: 1, bar: "baz"}`) instantiates the insert/duplicate/get behaviour. -/
theorem c1_insert_pk_duplicate_witness :
    tableInsert s3Table [] [("foo", .integer 1), ("bar", .text "baz")] =
      .ok (encodeInt32 1,
        { s3Table with rows := [(encodeInt32 1, [("foo", .integer 1), ("bar", .text "baz")])] },
        []) ∧
    tableInsert
        { s3Table with rows := [(encodeInt32 1, [("foo", .integer 1), ("bar", .text "baz")])] } []
        [("foo", .integer 1), ("bar", .text "baz")] =
      .error .duplicateDocument ∧
    tableGet
        { s3Table with rows := [(encodeInt32 1, [("foo", .integer 1), ("bar", .text "baz")])] }
        (encodeInt32 1) = .ok [("foo", .integer 1), ("bar", .text "baz")] :=
  c1_insert_pk_duplicate
    [("foo", .integer 1), ("bar", .text "baz")]
    [("foo", .integer 1), ("bar", .text "baz")]
    (by decide) (by decide)

/-- C2: dropping a table deletes every index owned by it from the catalog
and leaves every other table (and every index of other tables) intact; in
spec scenario S1, after creating test1 (with an implicit unique index on
`a`), test2, test3 and dropping test1, the catalog lists exactly test2 and
test3 and holds no index named `test1_a_idx`. -/
theorem c2_drop_table_drops_indexes :
    (∀ (c : Catalog) (name : String) (c' : Catalog),
      Catalog.dropTable c name = .ok c' →
        (∀ i ∈ c'.indexes, i.tableName ≠ name) ∧
        (∀ i ∈ c.indexes, i.tableName ≠ name → i ∈ c'.indexes) ∧
        (∀ t ∈ c.tables, t.name ≠ name → t ∈ c'.tables)) ∧
    s1Chain.toOption.map Catalog.listTables = some ["test2", "test3"] ∧
    s1Chain.toOption.map (fun c => (c.lookupIndex "test1_a_idx").isSome) = some false := by
  refine ⟨?_, ?_, ?_⟩
  · intro c name c' hdrop
    unfold Catalog.dropTable at hdrop
    cases hfind : c.lookupTable name with
    | none => rw [hfind] at hdrop; cases hdrop
    | some t =>
      rw [hfind] at hdrop
      by_cases hro : t.readOnly = true
      · simp [hro] at hdrop
      · simp only [hro, if_neg, Bool.false_eq_true, not_false_eq_true, if_false] at hdrop
        cases hdrop
        refine ⟨?_, ?_, ?_⟩
        · intro i hi
          simp only [List.mem_filter, Bool.not_eq_eq_eq_not, Bool.not_true, beq_eq_false_iff_ne,
            ne_eq] at hi
          exact hi.2
        · intro i hi hne
          simp only [List.mem_filter, Bool.not_eq_eq_eq_not, Bool.not_true, beq_eq_false_iff_ne,
            ne_eq]
          exact ⟨hi, hne⟩
        · intro tb hb hne
          simp only [List.mem_filter, Bool.not_eq_eq_eq_not, Bool.not_true, beq_eq_false_iff_ne,
            ne_eq]
          exact ⟨hb, hne⟩
  · decide
  · decide

/-- C2 witness: dropping `test1` from a concrete catalog keeps the other
table's index and the other table itself. -/
theorem c2_drop_table_drops_indexes_witness :
    c2IdxB ∈ c2After.indexes ∧ ({ name := "test2" } : TableConfig) ∈ c2After.tables := by
  have h := c2_drop_table_drops_indexes.1 c2Before "test1" c2After (by decide)
  exact ⟨h.2.1 c2IdxB (by decide) (by decide), h.2.2 { name := "test2" } (by decide) (by decide)⟩

/-- C3: two value types are comparable exactly when they are equal, both
numeric (integer or double), or both timestamp-compatible — where
timestamp-compatible means exactly the types timestamp and text; and the
comparison routine surfaces a typed error on incomparable types instead of
silently returning. -/
theorem c3_comparability :
    (∀ t u : ValueType,
      t.IsComparableWith u = true ↔
        (t = u ∨
         ((t = .integer ∨ t = .double) ∧ (u = .integer ∨ u = .double)) ∨
         ((t = .timestamp ∨ t = .text) ∧ (u = .timestamp ∨ u = .text)))) ∧
    (∀ t u : ValueType,
      t.IsComparableWith u = false →
        compareTypesChecked t u = .error .typeMismatch) := by
  constructor
  · decide
  · intro t u h
    simp [compareTypesChecked, h]

/-- C3 witness: blob and integer are incomparable and the check surfaces
`typeMismatch` there. -/
theorem c3_comparability_witness :
    ValueType.IsComparableWith .blob .integer = false ∧
    compareTypesChecked .blob .integer = .error .typeMismatch :=
  ⟨by decide, c3_comparability.2 .blob .integer (by decide)⟩

/-- C4: for every string in the operand corpus of `TestString` and for every
binary expression `10.4 OP foo.bar.1` over the fifteen listed operators,
formatting the parse of the string yields the string exactly. -/
theorem c4_format_parse_roundtrip :
    operandCorpus.all roundtrip = true ∧
    (operatorCorpus.all (fun op => roundtrip ("10.4 " ++ op ++ " foo.bar.1"))) = true := by
  constructor
  · decide
  · decide

/-- C9: after rollback a session is unusable — commit on it errors while a
second rollback is a successful no-op; commit on a read-only session errors;
and a second commit after a successful commit errors. -/
theorem c9_session_lifecycle :
    (∀ w : Bool,
      (beginSession w).rollback = .ok { writable := w, status := .rolledBack } ∧
      Session.commit { writable := w, status := .rolledBack } = .error .transactionClosed ∧
      Session.rollback { writable := w, status := .rolledBack } =
        .ok { writable := w, status := .rolledBack }) ∧
    (beginSession false).commit = .error .transactionReadOnly ∧
    ((beginSession true).commit = .ok { writable := true, status := .committed } ∧
     Session.commit { writable := true, status := .committed } = .error .transactionClosed) := by
  refine ⟨fun w => ?_, by decide, by decide⟩
  cases w <;> exact ⟨rfl, rfl, rfl⟩

/-- C10 counterexample: parsing `UPDATE t UNSET a.b` does not record the
path `a.b` — the UNSET clause consumes the single identifier `a` and leaves
`.b` unconsumed — whereas the SET clause parses the full path `a.b`. -/
theorem c10_counterexample :
    parseUpdateStatement
        [.ident "t", .kwUnset, .ident "a", .dot, .ident "b"] =
      .ok ({ tableName := "t", unsetFields := ["a"] }, [.dot, .ident "b"]) ∧
    parseSetClause [.ident "a", .dot, .ident "b", .eq, .intLit 1] =
      .ok ([{ path := ["a", "b"], e := .lit 1 }], []) := by
  constructor
  · decide
  · decide

/-- C10 (amended): the UNSET clause accepts single top-level field
identifiers, not the multi-segment field paths that the SET clause accepts:
for any identifiers `a` and `b`, parsing the UNSET operand `a.b` records
only `a` and leaves `.b` unconsumed, while the SET clause's path parser
consumes the full path `a.b`. -/
theorem c10_unset_single_identifier (a b : String) :
    parseUnsetClause [.ident a, .dot, .ident b] = .ok ([a], [.dot, .ident b]) ∧
    parsePathToks [.ident a, .dot, .ident b] = .ok ([a, b], []) := by
  constructor
  · simp [parseUnsetClause, parseUnsetFields, parseIdentTok]
  · simp [parsePathToks, uPathTail]

/-- C5: DropIndex on a constraint-bound index (created implicitly for a
UNIQUE or primary-key constraint) fails with `cannotDropConstraintIndex`
and, the operation returning an error, the catalog is unchanged and the
index remains; DropIndex on a manually created index succeeds and removes
it; DropIndex on an unknown name fails with `indexNotFound`. -/
theorem c5_drop_index :
    (∀ (c : Catalog) (name : String) (i : IndexConfig),
      c.lookupIndex name = some i → i.constraintBound = true →
        Catalog.dropIndex c name = .error .cannotDropConstraintIndex) ∧
    (∀ (c : Catalog) (name : String) (i : IndexConfig),
      c.lookupIndex name = some i → i.constraintBound = false →
        Catalog.dropIndex c name =
          .ok { c with indexes := c.indexes.filter (fun j => !(j.name == name)) } ∧
        Catalog.lookupIndex
          { c with indexes := c.indexes.filter (fun j => !(j.name == name)) } name = none) ∧
    (∀ (c : Catalog) (name : String),
      c.lookupIndex name = none → Catalog.dropIndex c name = .error .indexNotFound) := by
  refine ⟨?_, ?_, ?_⟩
  · intro c name i hfind hcb
    simp [Catalog.dropIndex, hfind, hcb]
  · intro c name i hfind hcb
    refine ⟨by simp [Catalog.dropIndex, hfind, hcb], ?_⟩
    simp only [Catalog.lookupIndex]
    rw [List.find?_eq_none]
    intro j hj
    simp only [List.mem_filter, Bool.not_eq_eq_eq_not, Bool.not_true, beq_eq_false_iff_ne,
      ne_eq] at hj
    simpa using hj.2
  · intro c name hfind
    simp [Catalog.dropIndex, hfind]

/-- C5 witness: in the catalog of spec scenario S2, dropping the manual
index `idx_t1_foo` succeeds and removes it, dropping the constraint-bound
`t1_bar_idx` fails with `cannotDropConstraintIndex`, and dropping a missing
name fails with `indexNotFound`. -/
theorem c5_drop_index_witness :
    Catalog.dropIndex c5Catalog "t1_bar_idx" = .error .cannotDropConstraintIndex ∧
    Catalog.dropIndex c5Catalog "idx_t1_foo" =
      .ok { c5Catalog with
            indexes := c5Catalog.indexes.filter (fun j => !(j.name == "idx_t1_foo")) } ∧
    Catalog.lookupIndex
      { c5Catalog with
        indexes := c5Catalog.indexes.filter (fun j => !(j.name == "idx_t1_foo")) }
      "idx_t1_foo" = none ∧
    Catalog.dropIndex c5Catalog "missing_idx" = .error .indexNotFound :=
  ⟨c5_drop_index.1 c5Catalog "t1_bar_idx" c5IdxBar (by decide) (by decide),
   (c5_drop_index.2.1 c5Catalog "idx_t1_foo" c5IdxFoo (by decide) (by decide)).1,
   (c5_drop_index.2.1 c5Catalog "idx_t1_foo" c5IdxFoo (by decide) (by decide)).2,
   c5_drop_index.2.2 c5Catalog "missing_idx" (by decide)⟩

/-- C6: with a non-unique index on path `foo`, inserting a document that
has a (non-null) value at `foo` and then one that lacks `foo` leaves the
index with the entry for the lacking document first — stored as a typed
null, the smallest value — and the valued entry second, so ascending
iteration visits the null row before the valued row. -/
theorem c6_index_null_first (dA dB : Doc) (v : Value)
    (hA : getField dA "foo" = some v) (hv : v ≠ Value.null)
    (hB : getField dB "foo" = none) :
    tableInsert s4Table [s4Index] dA =
      .ok (encodeUInt64BE 1, { s4Table with seq := 1, rows := [(encodeUInt64BE 1, dA)] },
        [{ s4Index with entries := [(encodeValue v ++ encodeUInt64BE 1, [])] }]) ∧
    tableInsert { s4Table with seq := 1, rows := [(encodeUInt64BE 1, dA)] }
        [{ s4Index with entries := [(encodeValue v ++ encodeUInt64BE 1, [])] }] dB =
      .ok (encodeUInt64BE 2,
        { s4Table with seq := 2, rows := [(encodeUInt64BE 1, dA), (encodeUInt64BE 2, dB)] },
        [{ s4Index with
           entries := [(encodeValue Value.null ++ encodeUInt64BE 2, []),
                       (encodeValue v ++ encodeUInt64BE 1, [])] }]) := by
  have h12 : (encodeUInt64BE 2 == encodeUInt64BE 1) = false := by decide
  have hlex21 : lexLt (encodeUInt64BE 2) (encodeUInt64BE 1) = false := by decide
  have hlexnull :
      lexLt (encodeValue Value.null ++ encodeUInt64BE 2) (encodeValue v ++ encodeUInt64BE 1) =
        true := by
    cases v with
    | null => exact absurd rfl hv
    | boolean b => simp [encodeValue, lexLt, List.cons_append]
    | integer n => simp [encodeValue, lexLt, List.cons_append]
    | text t => simp [encodeValue, lexLt, List.cons_append]
    | blob bs => simp [encodeValue, lexLt, List.cons_append]
  have hne : ¬(encodeUInt64BE 1 = encodeUInt64BE 2) := by decide
  constructor
  · simp [tableInsert, resolvePk, s4Table, s4Index, indexAdd, hA, insertSorted,
      List.mapM.loop, pure, Except.pure, Bind.bind, Except.bind]
  · simp [tableInsert, resolvePk, s4Table, s4Index, indexAdd, hB, Option.getD, insertSorted,
      h12, hlex21, hlexnull, hne, List.mapM.loop, pure, Except.pure, Bind.bind, Except.bind]

/-- C6 witness: the two concrete documents of `TestTableInsert` — one with
`foo: 10`, one without `foo` — instantiate the null-first index order. -/
theorem c6_index_null_first_witness :
    tableInsert s4Table [s4Index] [("fielda", .text "a"), ("foo", .integer 10)] =
      .ok (encodeUInt64BE 1,
        { s4Table with
          seq := 1, rows := [(encodeUInt64BE 1, [("fielda", .text "a"), ("foo", .integer 10)])] },
        [{ s4Index with
           entries := [(encodeValue (.integer 10) ++ encodeUInt64BE 1, [])] }]) ∧
    tableInsert
        { s4Table with
          seq := 1, rows := [(encodeUInt64BE 1, [("fielda", .text "a"), ("foo", .integer 10)])] }
        [{ s4Index with entries := [(encodeValue (.integer 10) ++ encodeUInt64BE 1, [])] }]
        [("fielda", .text "a")] =
      .ok (encodeUInt64BE 2,
        { s4Table with
          seq := 2,
          rows := [(encodeUInt64BE 1, [("fielda", .text "a"), ("foo", .integer 10)]),
                   (encodeUInt64BE 2, [("fielda", .text "a")])] },
        [{ s4Index with
           entries := [(encodeValue Value.null ++ encodeUInt64BE 2, []),
                       (encodeValue (.integer 10) ++ encodeUInt64BE 1, [])] }]) :=
  c6_index_null_first [("fielda", .text "a"), ("foo", .integer 10)] [("fielda", .text "a")]
    (.integer 10) (by decide) (by decide) (by decide)

/-- C7: ReIndex repopulates exactly the named index, leaving one entry per
table row, and touches no other index: after dropping index `b` and
reindexing `a`, index `a` holds one entry per row of the table and `b`
remains non-existent. -/
theorem c7_reindex_specificity (rows : List (List Nat × Doc))
    (ea eb : List (List Nat × List Nat)) :
    Catalog.dropIndex (c7CatAB rows ea eb) "b" = .ok (c7CatA rows ea) ∧
    Catalog.reIndex (c7CatA rows ea) "a" =
      .ok (c7CatA rows (Catalog.rebuildEntries (c7TableOf rows) "fa" false)) ∧
    (Catalog.rebuildEntries (c7TableOf rows) "fa" false).length = rows.length ∧
    Catalog.lookupIndex (c7CatA rows (Catalog.rebuildEntries (c7TableOf rows) "fa" false)) "b" =
      none := by
  refine ⟨?_, ?_, ?_, ?_⟩
  · simp [Catalog.dropIndex, Catalog.lookupIndex, c7CatAB, c7CatA, c7IdxA, c7IdxB,
      List.find?, List.filter]
  · simp [Catalog.reIndex, Catalog.lookupIndex, Catalog.lookupTable, c7CatA, c7IdxA,
      c7TableOf, List.find?]
  · simpa [c7TableOf] using rebuildEntries_length (c7TableOf rows) "fa" false
  · simp [Catalog.lookupIndex, c7CatA, c7IdxA, List.find?]

/-- C8: creating a table (resp. an index) inside a writable transaction and
rolling back leaves the committed state unchanged, and a subsequently begun
read-only transaction fails to find the table with `tableNotFound` (resp.
the index with `indexNotFound`). -/
theorem c8_rollback_invisibility :
    (∀ (e : EngineState) (n : String) (tx : EngineTx),
      e.tables.contains n = false →
      (beginTx e true).createTable n = .ok tx →
        tx.rollbackTx = e ∧ (beginTx e false).getTable n = .error .tableNotFound) ∧
    (∀ (e : EngineState) (tbl idx : String) (tx : EngineTx),
      e.tables.contains tbl = true →
      e.indexes.contains (tbl, idx) = false →
      (beginTx e true).createIndex tbl idx = .ok tx →
        tx.rollbackTx = e ∧ (beginTx e false).getIndex tbl idx = .error .indexNotFound) := by
  constructor
  · intro e n tx hmem hcreate
    have hmem' : n ∉ e.tables := by simpa using hmem
    simp [EngineTx.createTable, beginTx, hmem'] at hcreate
    constructor
    · subst hcreate; rfl
    · simp [EngineTx.getTable, beginTx, hmem']
  · intro e tbl idx tx hmemT hmemI hcreate
    have hmemT' : tbl ∈ e.tables := by simpa using hmemT
    have hmemI' : (tbl, idx) ∉ e.indexes := by simpa using hmemI
    simp [EngineTx.createIndex, beginTx, hmemT', hmemI'] at hcreate
    constructor
    · subst hcreate; rfl
    · simp [EngineTx.getIndex, beginTx, hmemT', hmemI']

/-- C8 witness: the concrete create-then-rollback runs of the engine test
suite instantiate both the table and the index case. -/
theorem c8_rollback_invisibility_witness :
    (c8TxT.rollbackTx = ({} : EngineState) ∧
     (beginTx {} false).getTable "table" = .error .tableNotFound) ∧
    (c8TxI.rollbackTx = c8E0 ∧
     (beginTx c8E0 false).getIndex "table" "idx" = .error .indexNotFound) :=
  ⟨c8_rollback_invisibility.1 {} "table" c8TxT (by decide) (by decide),
   c8_rollback_invisibility.2 c8E0 "table" "idx" c8TxI (by decide) (by decide) (by decide)⟩

end Chai
